import Mathlib

/-!
# Verification of the MinA voice-note intake and processing pipeline

Shallow embedding of the core pipeline of the repository:

* `app.py` / `app_multilang.py` — the Twilio webhook: dedupe guard, text-reply
  menu handling, media download, credit/subscription reservation, job insert,
  worker enqueue (`twilio_webhook`, lines 293-659 of `app.py`).
* `worker_multilang_production_fixed.py` — the worker: streamed download with a
  size ceiling, ffmpeg normalisation, retried transcription, encryption before
  persistence, summarisation, failure and cleanup semantics
  (`process_audio_job`, `complete_summary_job`).

External collaborators (HTTP transport, Twilio send, the OpenAI calls, the
encryption module, `language_handler_v2`, the `whatsapp_features` handlers,
the OS temp-file machinery) are modelled as parameters: functions or outcome
values supplied to the embedded code.  Python floats are modelled as `ℚ`,
timestamps as `Int`, database rows as records, and the set of local temporary
files as a `List String` of symbolic path handles (`tempfile.mkstemp`
guarantees fresh distinct names, so the handles are fixed distinct constants).
Python exceptions are modelled as `Except Exc` values; a `try/except` block is
an explicit `match` on such a value.
-/

/-! ## Basic data model (`users` and `meeting_notes` tables) -/

/-- One row of the `users` table, the fields read by the reservation:
`credits_remaining` (decimal minutes), `subscription_active`,
`subscription_expiry` (a timestamp, modelled as `Int`). -/
structure UserRow where
  credits : ℚ
  subActive : Bool
  subExpiry : Option Int
  deriving Repr, DecidableEq

/-- One row of the `meeting_notes` table (one job per inbound voice note).
`createdSeq` models `created_at` for `ORDER BY created_at DESC`. -/
structure JobRow where
  id : Nat
  phone : String
  audioFile : Option String
  transcript : Option String
  summary : Option String
  messageSid : Option String
  jobState : Option String
  detectedLanguage : Option String
  createdSeq : Nat
  deriving Repr, DecidableEq

/-- The relational store: `users` keyed by phone, `jobs`, and the id /
`created_at` counters of the database. -/
structure Db where
  users : List (String × UserRow)
  jobs : List JobRow
  nextId : Nat
  nextSeq : Nat
  deriving Repr, DecidableEq

/-- `SELECT ... FROM users WHERE phone=%s` -/
def lookupUser (db : Db) (phone : String) : Option UserRow :=
  (db.users.find? (fun p => p.1 = phone)).map Prod.snd

/-! ### Python string primitives

Models of the `str` methods the pipeline uses, written by structural
recursion over the character list (ASCII case folding suffices for the
values the code compares against). -/

/-- One character of Python `str.lower` (ASCII range). -/
def lowerChar (c : Char) : Char :=
  if 'A' ≤ c ∧ c ≤ 'Z' then Char.ofNat (c.toNat + 32) else c

/-- Python `s.lower()`. -/
def pyLower (s : String) : String := ⟨s.data.map lowerChar⟩

def isSpaceChar (c : Char) : Bool := c = ' ' || c = '\t' || c = '\n' || c = '\r'

/-- Python `s.strip()`. -/
def pyStrip (s : String) : String :=
  ⟨((s.data.dropWhile isSpaceChar).reverse.dropWhile isSpaceChar).reverse⟩

/-- Python `s.replace(" ", "")`. -/
def pyRemoveSpaces (s : String) : String := ⟨s.data.filter (fun c => !(c = ' '))⟩

/-- Python `s.startswith(pre)`. -/
def pyStartsWith (s pre : String) : Bool := pre.data.isPrefixOf s.data

/-- Python `s[:n]`. -/
def pyTake (s : String) (n : Nat) : String := ⟨s.data.take n⟩

/-! ## `get_audio_duration_seconds` (`app.py` lines 190-211,
`app_multilang.py` lines 130-151; both copies are identical)

The mutagen metadata probe and `os.path.getsize` are external: the model
receives `mutagenLength` (`some len` when `MutagenFile` yields an `info` with
a `length`, `none` when it returns `None`/raises/has no length) and
`sizeBytes` (`none` when `os.path.getsize` raises). -/

/-- `bitrate_map.get(ext, 96000)` from `get_audio_duration_seconds`. -/
def bitrateFor (ext : String) : ℚ :=
  if ext = "ogg" then 64000
  else if ext = "opus" then 64000
  else if ext = "m4a" then 96000
  else if ext = "aac" then 96000
  else if ext = "mp3" then 128000
  else if ext = "wav" then 1411200
  else if ext = "amr" then 12200
  else if ext = "3gp" then 12200
  else if ext = "webm" then 64000
  else if ext = "mp4" then 96000
  else 96000

/-- `path.lower().split('.')[-1]`: the (lowercased) segment after the last
dot, or the whole lowercased string when it has no dot. -/
def extOfPath (path : String) : String :=
  ⟨(((pyLower path).data.reverse.takeWhile (fun c => !(c = '.'))).reverse)⟩

/-- `get_audio_duration_seconds(path)`: metadata length if mutagen yields one,
else a bitrate-table estimate floored at `1.0`, else `30.0`. -/
def get_audio_duration_seconds (mutagenLength : Option ℚ) (sizeBytes : Option Nat)
    (path : String) : ℚ :=
  match mutagenLength with
  | some len => len
  | none =>
    match sizeBytes with
    | some sz => max ((sz * 8 : ℚ) / bitrateFor (extOfPath path)) 1
    | none => 30

/-! ## Message and effect vocabulary

`send_whatsapp` texts are identified by tag (their literal content is fixed in
the source); calls into external feature modules are recorded as `Eff.ext`. -/

/-- The distinct WhatsApp messages the webhook and worker send. -/
inductive Msg where
  | privacyNotice
  | scoreReply
  | skipConfirm
  | generatingSummary (lang : String)
  | summaryEnqueueFailed
  | serviceUnavailable
  | summaryError
  | menuDetected (detected : Option String)
  | menuPlain
  | subscribePremium
  | subscribeBasic
  | langSet (lang : String)
  | menuReprompt (detected : Option String)
  | welcomeButtons
  | downloadFailed
  | insufficientLinks
  | processingAudio
  | maintenanceUnavailable
  | couldNotStart
  | tooLargeMsg
  | transcriptionFailedMsg
  | transcribedMsg
  deriving Repr, DecidableEq

/-- Observable side effects other than database writes. -/
inductive Eff where
  | msg (recipient : String) (m : Msg)
  | ext (name : String)
  | enq (fn : String) (meetingId : Nat)
  | setLang (phone lang : String)
  deriving Repr, DecidableEq

/-! ## Atomic credit/subscription reservation
(`app.py` `twilio_webhook` lines 546-619; `app_multilang.py` lines 272-349 is
the same transaction with a different insufficient-balance message.)

One database transaction with the user row locked `FOR UPDATE`:
load-or-create the user, compute the minutes to deduct, either roll back with
an insufficient-balance message or insert the `meeting_notes` row and commit.
`insertReturnsRow` models whether the driver returns the `RETURNING id` row
(`False` makes the code roll back and raise `RuntimeError`). -/

/-- `sub_active and (sub_expiry is None or sub_expiry > now)` -/
def subscriptionShields (subActive : Bool) (subExpiry : Option Int) (now : Int) : Bool :=
  subActive && (match subExpiry with
    | none => true
    | some e => decide (now < e))

inductive ResOutcome where
  | insufficient
  | inserted (meetingId : Nat)
  | raised (msg : String)
  deriving Repr, DecidableEq

structure ResResult where
  db : Db
  effects : List Eff
  outcome : ResOutcome
  deriving Repr, DecidableEq

/-- The `credits_remaining` value the transaction reads (a fresh user row is
created with a starting balance of `30.0`). -/
def reservationCredits (db : Db) (phone : String) : ℚ :=
  match lookupUser db phone with
  | some u => u.credits
  | none => 30

/-- The subscription fields the transaction reads. -/
def reservationSub (db : Db) (phone : String) : Bool × Option Int :=
  match lookupUser db phone with
  | some u => (u.subActive, u.subExpiry)
  | none => (false, none)

/-- The minutes-to-deduct the transaction computes: `0.0` when the
subscription shields, otherwise the audio duration in minutes. -/
def reservationToDeduct (db : Db) (phone : String) (minutes : ℚ) (now : Int) : ℚ :=
  if subscriptionShields (reservationSub db phone).1 (reservationSub db phone).2 now then 0
  else minutes

/-- The reservation transaction of `twilio_webhook`.  NOTE (faithful to the
source): despite the comment "deduct and insert meeting row", no branch ever
updates `credits_remaining`. -/
def atomicReservation (db : Db) (phone : String) (minutes : ℚ) (now : Int)
    (dedupeKey : Option String) (mediaUrl : String) (insertReturnsRow : Bool) : ResResult :=
  -- SELECT credits_remaining, subscription_active, subscription_expiry ... FOR UPDATE
  let db1 : Db :=
    match lookupUser db phone with
    | some _ => db
    | none =>
      -- INSERT INTO users (phone, credits_remaining, subscription_active, ...) VALUES (%s, 30.0, False, ...)
      { db with users := db.users ++ [(phone, ⟨30, false, none⟩)] }
  let credits := reservationCredits db phone
  let toDeduct := reservationToDeduct db phone minutes now
  if toDeduct > 0 ∧ credits < toDeduct then
    -- conn.rollback(); send the subscription links; return ("", 204)
    { db := db, effects := [Eff.msg phone Msg.insufficientLinks], outcome := .insufficient }
  else
    -- INSERT INTO meeting_notes (phone, audio_file, transcript, summary, message_sid, created_at)
    --   VALUES (...) RETURNING id ; conn.commit()
    if insertReturnsRow then
      let mid := db1.nextId
      let newJob : JobRow :=
        { id := mid, phone := phone, audioFile := some mediaUrl, transcript := none,
          summary := none, messageSid := dedupeKey, jobState := none,
          detectedLanguage := none, createdSeq := db1.nextSeq }
      { db := { db1 with jobs := db1.jobs ++ [newJob],
                         nextId := db1.nextId + 1, nextSeq := db1.nextSeq + 1 },
        effects := [], outcome := .inserted mid }
    else
      -- conn.rollback(); raise RuntimeError(...)
      { db := db, effects := [], outcome := .raised "Failed to insert meeting_notes row" }

/-! ## The inbound webhook (`app.py` `twilio_webhook`, lines 293-659)

The request is the Twilio form payload; `None` and the empty string are both
falsy in the source, so the model tests `truthy` wherever Python tests the
value itself.  External feature handlers (`whatsapp_features`,
`advanced_features`, `smart_followups`) are recorded as `Eff.ext` calls;
`parse_language_choice` / `sha256` are environment functions. -/

structure Req where
  fromAddr : Option String
  messageSid : Option String
  mediaUrl : Option String
  mediaContentType : Option String
  body : Option String
  latitude : Option String
  longitude : Option String
  buttonPayload : Option String
  deriving Repr, DecidableEq

structure WebhookEnv where
  sha256hex : String → String
  parseLanguageChoice : String → Option String
  queueAvailable : Bool
  enqueueOk : Bool
  downloadResult : Option String
  mutagenLength : Option ℚ
  fileSizeBytes : Option Nat
  insertReturnsRow : Bool
  now : Int

/-- Every return of the handler is `("", 204)`. -/
structure WebhookResult where
  db : Db
  effects : List Eff
  files : List String
  response : String × Nat
  deriving Repr, DecidableEq

def respond (db : Db) (effects : List Eff) (files : List String) : WebhookResult :=
  { db := db, effects := effects, files := files, response := ("", 204) }

/-- Python truthiness of an optional string form field. -/
def truthy : Option String → Bool
  | none => false
  | some s => !(s == "")

/-- Python `a or b` on two optional strings. -/
def strOr (a b : Option String) : Option String := if truthy a then a else b

/-- Python `needle in haystack` on strings. -/
def strContains (haystack needle : String) : Bool :=
  decide (needle.data <:+: haystack.data)

/-- `normalize_phone_for_db`: `phone.strip().lower().replace(" ", "")`,
`None` for a missing/empty value. -/
def normalize_phone_for_db (phone : Option String) : Option String :=
  match phone with
  | none => none
  | some p => if p = "" then none else some (pyRemoveSpaces (pyLower (pyStrip p)))

/-- Python `round(x, 2)` (the float result is approximated by exact rounding
of the rational to two decimal places). -/
def round2 (q : ℚ) : ℚ := (round (q * 100) : ℤ) / 100

/-- `_get_pending_summary_job` (`app.py` lines 254-291, new-column branch):
latest job of the sender in state `awaiting_language_choice`, returning its id
and `detected_language`. -/
def pendingSummaryJob (db : Db) (phone : String) : Option (Nat × Option String) :=
  let cands := db.jobs.filter
    (fun j => decide (j.phone = phone ∧ j.jobState = some "awaiting_language_choice"))
  match cands.foldl (fun acc j =>
      match acc with
      | none => some j
      | some b => if b.createdSeq < j.createdSeq then some j else some b) none with
  | none => none
  | some j => some (j.id, j.detectedLanguage)

/-- `UPDATE meeting_notes SET job_state=%s WHERE id=%s` -/
def setJobState (db : Db) (mid : Nat) (st : String) : Db :=
  { db with jobs := db.jobs.map (fun j => if j.id = mid then { j with jobState := some st } else j) }

/-- `dedupe_key = message_sid or media_hash` where the hash is computed only
when `MessageSid` is absent and media is present. -/
def webhookDedupeKey (env : WebhookEnv) (req : Req) : Option String :=
  let mediaHash :=
    if !truthy req.messageSid && truthy req.mediaUrl then req.mediaUrl.map env.sha256hex
    else none
  strOr req.messageSid mediaHash

/-- Continuation of the text flow after the skip branch
(`app.py` lines 415-533). -/
def webhookTextFlow2 (env : WebhookEnv) (db : Db) (sender bodyText : String)
    (pending : Option (Nat × Option String)) : WebhookResult :=
  let lower := pyLower bodyText
  -- score commands
  if lower ∈ ["score", "my score", "show score", "task score"] then
    respond db [Eff.ext "get_user_completion_score", Eff.msg sender Msg.scoreReply] []
  else
    let langChoice := env.parseLanguageChoice bodyText
    match langChoice, pending with
    | some lc, some (mid, _) =>
      -- enqueue summary generation for the pending job
      if env.queueAvailable then
        if env.enqueueOk then
          respond db [Eff.enq "complete_summary_job" mid,
                      Eff.msg sender (Msg.generatingSummary lc)] []
        else
          respond db [Eff.enq "complete_summary_job" mid,
                      Eff.msg sender Msg.summaryEnqueueFailed] []
      else respond db [Eff.msg sender Msg.serviceUnavailable] []
    | _, _ =>
      -- language menu request
      if lower ∈ ["language", "lang", "settings", "भाषा", "ভাষা"] then
        match pending with
        | some (_, dl) => respond db [Eff.msg sender (Msg.menuDetected dl)] []
        | none => respond db [Eff.msg sender Msg.menuPlain] []
      else if lower ∈ ["subscribe", "premium", "upgrade", "subscription", "499"] then
        respond db [Eff.msg sender Msg.subscribePremium] []
      else if lower ∈ ["basic", "basic plan", "299"] then
        respond db [Eff.msg sender Msg.subscribeBasic] []
      else
        match langChoice, pending with
        | some lc, none =>
          -- set language preference (db_multilang.set_user_language)
          respond db [Eff.setLang sender lc, Eff.msg sender (Msg.langSet lc)] []
        | _, _ =>
          match pending with
          | some (_, dl) =>
            -- invalid text while a job awaits a language choice: re-send the menu
            respond db [Eff.msg sender (Msg.menuReprompt dl)] []
          | none => respond db [Eff.msg sender Msg.welcomeButtons] []

/-- The `if not media_url:` text flow (`app.py` lines 350-533). -/
def webhookTextFlow (env : WebhookEnv) (db : Db) (sender bodyText : String) : WebhookResult :=
  let lower := pyLower bodyText
  if lower ∈ ["privacy", "security", "data", "terms"] then
    respond db [Eff.msg sender Msg.privacyNotice] []
  else
    let pending := pendingSummaryJob db sender
    if lower ∈ ["show my tasks", "show my task", "tasks", "task", "my tasks", "my task",
                "list tasks", "show tasks", "show task"] then
      respond db [Eff.ext "send_morning_briefing_with_list"] []
    else if pyStartsWith lower "done " then
      respond db [Eff.ext "parse_task_completion_response"] []
    else if lower ∈ ["skip", "no summary", "no", "cancel"] then
      match pending with
      | some (mid, _) =>
        respond (setJobState db mid "skipped") [Eff.msg sender Msg.skipConfirm] []
      | none =>
        -- no pending job: the skip branch returns nothing and falls through
        webhookTextFlow2 env db sender bodyText pending
    else webhookTextFlow2 env db sender bodyText pending

/-- The media flow (`app.py` lines 535-655): download, duration, reservation,
cleanup, enqueue.  `files` is the set of webhook-created local files still on
disk when the handler returns. -/
def webhookMediaFlow (env : WebhookEnv) (db : Db) (sender mediaUrl : String)
    (dedupeKey : Option String) : WebhookResult :=
  match env.downloadResult with
  | none => respond db [Eff.msg sender Msg.downloadFailed] []
  | some localPath =>
    let duration := get_audio_duration_seconds env.mutagenLength env.fileSizeBytes localPath
    let minutes := round2 (duration / 60)
    let r := atomicReservation db sender minutes env.now dedupeKey mediaUrl env.insertReturnsRow
    match r.outcome with
    | .insufficient =>
      -- early return inside the transaction block: the local file is not cleaned up
      { db := r.db, effects := r.effects, files := [localPath], response := ("", 204) }
    | .raised _ =>
      -- RuntimeError propagates to the outer except (which returns 204), skipping cleanup
      { db := r.db, effects := r.effects, files := [localPath], response := ("", 204) }
    | .inserted mid =>
      -- cleanup of the local file, then the enqueue block with its own try/except
      let enqEffs :=
        if env.queueAvailable then
          [Eff.enq "process_audio_job" mid,
           Eff.msg sender (if env.enqueueOk then Msg.processingAudio else Msg.maintenanceUnavailable)]
        else [Eff.msg sender Msg.couldNotStart]
      { db := r.db, effects := r.effects ++ enqEffs, files := [], response := ("", 204) }

/-- `twilio_webhook` (`app.py` lines 293-659).  The whole body runs inside
`try: ... except: return ("", 204)`; every internal return is `("", 204)`. -/
def twilio_webhook (env : WebhookEnv) (db : Db) (req : Req) : WebhookResult :=
  let sender := (normalize_phone_for_db req.fromAddr).getD ""
  let dedupeKey := webhookDedupeKey env req
  -- dedupe guard: discard before any other processing
  let isDup :=
    if truthy dedupeKey then db.jobs.any (fun j => j.messageSid == dedupeKey) else false
  if isDup then respond db [] []
  else
    let bodyText := pyStrip (req.body.getD "")
    if truthy req.latitude && truthy req.longitude then
      respond db [Eff.ext "handle_location_message"] []
    else if truthy req.mediaUrl && strContains (req.mediaContentType.getD "") "image" then
      respond db [Eff.ext "handle_image_message"] []
    else if !(bodyText == "") && decide (pyStrip bodyText ∈ ["1", "2", "3"]) then
      respond db [Eff.ext "handle_numbered_response"] []
    else if truthy req.buttonPayload then
      respond db [Eff.ext "handle_button_response"] []
    else if !truthy req.mediaUrl then
      webhookTextFlow env db sender bodyText
    else
      webhookMediaFlow env db sender (req.mediaUrl.getD "") dedupeKey

/-! ## The worker (`worker_multilang_production_fixed.py`)

Python exceptions are values of `Exc` carrying `str(e)`; a `try/except` is a
`match` on an `Except Exc` value.  `RETRY_ATTEMPTS`, `MAX_FILE_MB` are the
source defaults.  `tempfile.mkstemp` names are symbolic constants (fresh and
distinct by construction of `mkstemp`). -/

structure Exc where
  msg : String
  deriving Repr, DecidableEq

/-- `MAX_FILE_MB = float(os.getenv("MAX_FILE_MB", "24"))` -/
def MAX_FILE_MB : ℚ := 24

/-- `RETRY_ATTEMPTS = int(os.getenv("WORKER_RETRY_ATTEMPTS", "3"))` -/
def RETRY_ATTEMPTS : Nat := 3

/-- Loop body of `with_retries`: try attempts `i, i+1, ...` while fuel lasts,
re-raising the last exception when it runs out. -/
def withRetriesGo {α : Type} (fn : Nat → Except Exc α) : Nat → Nat → Exc → Except Exc α
  | 0, _, last => .error last
  | fuel + 1, i, _ =>
    match fn i with
    | .ok a => .ok a
    | .error e => withRetriesGo fn fuel (i + 1) e

/-- `with_retries(fn, attempts)`: return the first successful attempt,
re-raise the last exception after exhausting the budget. -/
def with_retries {α : Type} (fn : Nat → Except Exc α) (attempts : Nat) : Except Exc α :=
  withRetriesGo fn attempts 0 (Exc.mk "with_retries: no attempts")

/-- One HTTP response as seen by `requests.get(..., stream=True)`:
`ok` is `raise_for_status` not raising, plus the `Content-Length` header
(already parsed: `none` covers both a missing header and a value `int(cl)`
fails on — the surrounding `except` swallows the parse error as well) and
the body size actually streamed. -/
structure HttpResp where
  ok : Bool
  contentLength : Option Nat
  bodyBytes : Nat
  deriving Repr, DecidableEq

/-- Body of the inner `try` of `stream_download_to_file`:
`raise ValueError(...)` when the declared size exceeds `MAX_FILE_MB`.
The caller wraps this in `except Exception: pass`. -/
def contentLengthCheck (cl : Nat) : Except Exc Unit :=
  if (cl : ℚ) / (1024 * 1024) > MAX_FILE_MB then
    .error (Exc.mk "Remote file too large")
  else .ok ()

/-- `stream_download_to_file(url, dest_path)` for one HTTP response: the
size-check `try` swallows every exception it raises (`except Exception:
pass` — including the too-large `ValueError`), after which the body is
streamed to `dest_path` unconditionally.  Returns the updated file set and
`os.path.getsize(dest_path)`. -/
def stream_download_to_file (resp : HttpResp) (destPath : String) (fs : List String) :
    Except Exc (List String × Nat) :=
  if !resp.ok then .error (Exc.mk "HTTPError")
  else
    let _swallowed : Except Exc Unit :=
      match resp.contentLength with
      | some cl => contentLengthCheck cl
      | none => .ok ()
    .ok (fs.insert destPath, resp.bodyBytes)

/-- Outcome of one `ffmpeg` invocation in `ensure_wav_via_ffmpeg`. -/
inductive ConvOutcome where
  | converted
  | ffmpegMissing
  | ffmpegFailed
  deriving Repr, DecidableEq

/-- `ensure_wav_via_ffmpeg(in_path)`: return `in_path` unchanged for `.wav`;
otherwise `mkstemp` a `.wav` output (`outPath`), run ffmpeg, and on
`FileNotFoundError` (no ffmpeg) remove the output and return `in_path`, on
`CalledProcessError` remove the output and re-raise.  `inExt` is
`os.path.splitext(in_path)[1].lower()`. -/
def ensure_wav_via_ffmpeg (outcome : ConvOutcome) (inPath inExt outPath : String)
    (fs : List String) : List String × Except Exc String :=
  if inExt = ".wav" then (fs, .ok inPath)
  else
    let fs1 := fs.insert outPath
    match outcome with
    | .converted => (fs1, .ok outPath)
    | .ffmpegMissing => (fs1.erase outPath, .ok inPath)
    | .ffmpegFailed => (fs1.erase outPath, .error (Exc.mk "ffmpeg conversion failed"))

/-- The fields of one `meeting_notes` row that `update_meeting` writes. -/
structure JobFields where
  jobState : Option String
  failureReason : Option String
  transcript : Option String
  detectedLanguage : Option String
  audioFile : Option String
  summary : Option String
  summaryLanguage : Option String
  summaryCompletedAt : Bool
  deriving Repr, DecidableEq

def emptyJobFields : JobFields :=
  { jobState := none, failureReason := none, transcript := none, detectedLanguage := none,
    audioFile := none, summary := none, summaryLanguage := none, summaryCompletedAt := false }

/-- Result of a worker job run: the cumulative row updates, the messages and
calls it made, and the temp files it created that still exist on return. -/
structure WorkerResult where
  row : JobFields
  effects : List Eff
  fs : List String
  deriving Repr, DecidableEq

/-- External outcomes consumed by `process_audio_job`. -/
structure WorkerEnv where
  phoneRow : Option String
  srcExt : String
  localExists : Bool
  localSize : Nat
  download : Nat → HttpResp
  conv1 : ConvOutcome
  conv2 : ConvOutcome
  transcribe1 : Nat → Except Exc String
  transcribe2 : Nat → Except Exc String
  encrypt : String → Option String

/-- `os.path.splitext(str(audio_source))[-1] or ".dat"` — the suffix given to
`mkstemp` for the input temp file. -/
def mkstempSuffix (srcExt : String) : String := if srcExt = "" then ".dat" else srcExt

/-- `str(audio_source).lower().startswith("http")` -/
def isHttpSource (s : String) : Bool := pyStartsWith (pyLower s) "http"

/-- `ext not in (".wav", ".m4a", ".mp3", ".ogg", ".opus", ".webm", ".aac", ".3gp")` -/
def needsConversion (ext : String) : Bool :=
  decide (ext ∉ [".wav", ".m4a", ".mp3", ".ogg", ".opus", ".webm", ".aac", ".3gp"])

/-- Symbolic `mkstemp` handles (fresh, pairwise distinct paths). -/
def TMP_IN_PATH : String := "mina_in_tmp"
def CONV1_PATH : String := "mina_conv_1.wav"
def CONV2_PATH : String := "mina_conv_2.wav"

/-- The `finally` block of `process_audio_job`:
`for p in (tmp_in, tmp_conv): os.remove(p)` (best effort). -/
def workerCleanup (fs : List String) (tmpConv : Option String) : List String :=
  match tmpConv with
  | none => fs.erase TMP_IN_PATH
  | some c => (fs.erase TMP_IN_PATH).erase c

/-- The detected-language heuristic of `process_audio_job`
(lines 268-278): Devanagari marks or common Hindi words in the first 300
characters, lowercased. -/
def detectLanguage (transcript : String) : String :=
  let sample := pyLower (pyTake transcript 300)
  if ["ऀ", "ँ", "ं", "आप", "हैं", "हूँ"].any
      (fun s => strContains sample s) then "hi"
  else "en"

/-- Success continuation of `process_audio_job` (lines 268-300): detect
language, encrypt (falling back to the plaintext when
`encrypt_sensitive_data` raises), write the row, notify. -/
def processAudioSuccess (env : WorkerEnv) (phone : String) (transcriptText : String)
    (fs : List String) (tmpConv : Option String) : WorkerResult :=
  let detected := detectLanguage transcriptText
  let encTranscript :=
    match env.encrypt transcriptText with
    | some c => c
    | none => transcriptText   -- "Encryption failed, storing plaintext as fallback"
  { row := { emptyJobFields with
               transcript := some encTranscript
               detectedLanguage := some detected
               jobState := some "transcribed"
               audioFile := some TMP_IN_PATH }
    effects := [Eff.msg phone Msg.transcribedMsg]
    fs := workerCleanup fs tmpConv }

/-- Transcription-failure continuation (lines 258-266): mark `failed` with
reason `transcription_error` and notify the user. -/
def processAudioTranscriptionFailed (phone : String) (fs : List String)
    (tmpConv : Option String) : WorkerResult :=
  { row := { emptyJobFields with
               jobState := some "failed"
               failureReason := some "transcription_error" }
    effects := [Eff.msg phone Msg.transcriptionFailedMsg]
    fs := workerCleanup fs tmpConv }

/-- The post-hoc size-ceiling branch of `process_audio_job` (lines 227-230):
notify the user and mark the job failed; the reason records the measured
size (the `:.2f`-formatted megabyte value in the source, the byte count
here). -/
def processAudioTooLarge (phone : String) (fileSize : Nat) (fs : List String) : WorkerResult :=
  { row := { emptyJobFields with
               jobState := some "failed"
               failureReason := some ("file_too_large_" ++ toString fileSize ++ "B") }
    effects := [Eff.msg phone Msg.tooLargeMsg]
    fs := workerCleanup fs none }

/-- The outer `except Exception` of `process_audio_job` (lines 302-307):
mark `failed` with `str(e)[:1000]` and send nothing. -/
def processAudioOuterExcept (e : Exc) (fs : List String) (tmpConv : Option String) :
    WorkerResult :=
  { row := { emptyJobFields with
               jobState := some "failed"
               failureReason := some (pyTake e.msg 1000) }
    effects := []
    fs := workerCleanup fs tmpConv }

/-- The body of `process_audio_job` after the audio has landed in `tmp_in`
(lines 220-300): the sanity/ceiling size checks, the heuristic conversion,
the retried transcription with its conversion-and-retry fallback, and the
success path. -/
def processAudioWithFile (env : WorkerEnv) (phone tmpInExt : String)
    (fs1 : List String) (fileSize : Nat) : WorkerResult :=
  let fileMB : ℚ := (fileSize : ℚ) / (1024 * 1024)
  -- sanity size check: `raise ValueError(...)` lands in the outer except
  if fileMB < 1 / 1000 then
    processAudioOuterExcept (Exc.mk "Downloaded audio file is too small or empty.") fs1 none
  else if fileMB > MAX_FILE_MB then
    processAudioTooLarge phone fileSize fs1
  else
    -- heuristic conversion before the first transcription attempt
    let step1 : List String × Option String :=
      if needsConversion tmpInExt then
        match ensure_wav_via_ffmpeg env.conv1 TMP_IN_PATH tmpInExt CONV1_PATH fs1 with
        | (fs', .ok p) => (fs', some p)
        | (fs', .error _) => (fs', none)   -- `except Exception: tmp_conv = None`
      else (fs1, none)
    match with_retries env.transcribe1 RETRY_ATTEMPTS with
    | .ok t => processAudioSuccess env phone t step1.1 step1.2
    | .error _ =>
      match step1.2 with
      | none =>
        -- not converted yet: convert and retry transcription
        match ensure_wav_via_ffmpeg env.conv2 TMP_IN_PATH tmpInExt CONV2_PATH step1.1 with
        | (fs3, .ok p) =>
          match with_retries env.transcribe2 RETRY_ATTEMPTS with
          | .ok t => processAudioSuccess env phone t fs3 (some p)
          | .error _ => processAudioTranscriptionFailed phone fs3 (some p)
        | (fs3, .error _) => processAudioTranscriptionFailed phone fs3 none
      | some _ => processAudioTranscriptionFailed phone step1.1 step1.2

/-- `process_audio_job(meeting_id, audio_source)`
(`worker_multilang_production_fixed.py` lines 179-315).  The `mkstemp` suffix
(`os.path.splitext(audio_source)[-1] or ".dat"`) determines the extension
checks; the random part of the temp path is elided from the symbolic handle
`TMP_IN_PATH`. -/
def process_audio_job (env : WorkerEnv) (audioSource : String) : WorkerResult :=
  let phone := env.phoneRow.getD "unknown"
  let tmpInExt := pyLower (mkstempSuffix env.srcExt)
  let fs0 : List String := [TMP_IN_PATH]   -- mkstemp creates tmp_in
  -- download (with retries) or copy of a local file into tmp_in
  let acquire : Except Exc (List String × Nat) :=
    if isHttpSource audioSource then
      with_retries (fun i => stream_download_to_file (env.download i) TMP_IN_PATH fs0)
        RETRY_ATTEMPTS
    else
      if env.localExists then .ok (fs0, env.localSize)
      else .error (Exc.mk ("local audio source not found: " ++ audioSource))
  match acquire with
  | .error e => processAudioOuterExcept e fs0 none
  | .ok (fs1, fileSize) => processAudioWithFile env phone tmpInExt fs1 fileSize

/-- External outcomes consumed by `complete_summary_job`: the selected row
`(transcript, detected_language, phone)`, decryption, the retried summarizer,
and encryption (`none` models the function raising). -/
structure SummaryEnv where
  row : Option (Option String × Option String × Option String)
  decrypt : String → Option String
  summarize : Nat → Except Exc String
  encrypt : String → Option String

/-- `complete_summary_job(meeting_id, language_code)`
(`worker_multilang_production_fixed.py` lines 317-420).  The action-item
extraction block (lines 374-411) has its own `try/except` that only logs, and
is recorded as one external call. -/
def complete_summary_job (env : SummaryEnv) (languageCode : Option String) : WorkerResult :=
  match env.row with
  | none =>
    -- meeting not found: log and return without any update
    { row := emptyJobFields, effects := [], fs := [] }
  | some (encTranscript, detectedLanguage, _phone) =>
    match encTranscript with
    | none =>
      -- no transcript: mark failed, send nothing
      { row := { emptyJobFields with
                   jobState := some "failed"
                   failureReason := some "no_transcript" }
        effects := []
        fs := [] }
    | some encT =>
      let _transcript := (env.decrypt encT).getD encT   -- decrypt falls back to the raw value
      let lang := languageCode.getD (detectedLanguage.getD "en")
      match with_retries env.summarize RETRY_ATTEMPTS with
      | .error e =>
        -- unhandled by any inner handler: outer except marks failed, sends nothing
        { row := { emptyJobFields with
                     jobState := some "failed"
                     failureReason := some (pyTake e.msg 1000) }
          effects := []
          fs := [] }
      | .ok summaryText =>
        let encSummary :=
          match env.encrypt summaryText with
          | some c => c
          | none => summaryText   -- "Summary encryption failed" fallback
        { row := { emptyJobFields with
                     summary := some encSummary
                     summaryLanguage := some lang
                     summaryCompletedAt := true
                     jobState := some "summary_completed" }
          effects := [Eff.ext "action_item_extraction"]
          fs := [] }

/-! ## Claims -/

/-- C6 counterexample: `get_audio_duration_seconds` returns `0.0` (not a
nonzero floor) when mutagen parses the container and reports a zero length —
the metadata branch `return float(mf.info.length)` has no floor.  The claim
that every branch is strictly positive is false. -/
theorem C6_metadata_zero_counterexample :
    get_audio_duration_seconds (some 0) (some 1000) "voice.ogg" = 0 := rfl

/-- C6 (amended): the floors exist only on the fallback branches — the
bitrate-estimate branch is floored at `1.0` second and the final fallback
returns `30.0` — while the container-metadata branch returns the parsed
length unchanged (which may be zero). -/
theorem C6_floor_only_on_fallback_branches :
    (∀ (sz : Nat) (p : String), 1 ≤ get_audio_duration_seconds none (some sz) p) ∧
    (∀ (p : String), get_audio_duration_seconds none none p = 30) ∧
    (∀ (len : ℚ) (sb : Option Nat) (p : String),
      get_audio_duration_seconds (some len) sb p = len) := by
  refine ⟨?_, fun _ => rfl, fun _ _ _ => rfl⟩
  intro sz p
  simp [get_audio_duration_seconds]

/-- Concrete database for the C1 evaluation: one user with 30 credit-minutes
and no subscription. -/
def c1Db : Db :=
  { users := [("whatsapp:+911", ⟨30, false, none⟩)], jobs := [], nextId := 1, nextSeq := 1 }

def c1Res1 : ResResult := atomicReservation c1Db "whatsapp:+911" 20 0 (some "SM1") "u1" true

def c1Res2 : ResResult := atomicReservation c1Res1.db "whatsapp:+911" 20 0 (some "SM2") "u2" true

/-- C1 (bug): the reservation transaction never debits `credits_remaining` —
despite the source comment "deduct and insert meeting row", no branch updates
the users table.  A user with 30 credit-minutes and no subscription passes
the check for two consecutive 20-minute notes: both jobs are inserted and the
stored balance is still 30, although 30 minutes funds only one such job
(20 + 20 > 30). -/
theorem C1_reservation_never_debits :
    c1Res1.outcome = ResOutcome.inserted 1 ∧
    c1Res2.outcome = ResOutcome.inserted 2 ∧
    c1Res2.db.jobs.length = 2 ∧
    lookupUser c1Res2.db "whatsapp:+911" = some ⟨30, false, none⟩ ∧
    ¬ ((20 : ℚ) + 20 ≤ 30) := by
  refine ⟨rfl, rfl, rfl, rfl, by norm_num⟩

/-- C4: when the computed minutes-to-deduct is positive and exceeds the
loaded `credits_remaining`, the reservation rolls the transaction back
(the returned database is exactly the input one — no job row, no user
mutation) and sends the payment/top-up message. -/
theorem C4_insufficient_balance_rolls_back (db : Db) (phone : String) (minutes : ℚ)
    (now : Int) (key : Option String) (url : String) (ins : Bool)
    (hpos : 0 < reservationToDeduct db phone minutes now)
    (hover : reservationCredits db phone < reservationToDeduct db phone minutes now) :
    atomicReservation db phone minutes now key url ins =
      { db := db, effects := [Eff.msg phone Msg.insufficientLinks],
        outcome := ResOutcome.insufficient } := by
  unfold atomicReservation
  rw [if_pos ⟨hpos, hover⟩]

def c4Db : Db := { users := [("p", ⟨0, false, none⟩)], jobs := [], nextId := 1, nextSeq := 1 }

theorem C4_insufficient_balance_rolls_back_witness :
    atomicReservation c4Db "p" 2 0 (some "SM9") "u" true =
      { db := c4Db, effects := [Eff.msg "p" Msg.insufficientLinks],
        outcome := ResOutcome.insufficient } :=
  C4_insufficient_balance_rolls_back c4Db "p" 2 0 (some "SM9") "u" true
    (by norm_num [reservationToDeduct, reservationSub, subscriptionShields, lookupUser, c4Db])
    (by norm_num [reservationToDeduct, reservationCredits, reservationSub,
                  subscriptionShields, lookupUser, c4Db])

/-- HTTP response declaring a 30 MB body (Content-Length 31457280), above the
24 MB ceiling. -/
def c7Resp : HttpResp := { ok := true, contentLength := some 31457280, bodyBytes := 31457280 }

/-- Worker environment whose download succeeds but delivers a 30 MB file. -/
def c7Env : WorkerEnv :=
  { phoneRow := some "p", srcExt := ".ogg", localExists := true, localSize := 0,
    download := fun _ => c7Resp, conv1 := .converted, conv2 := .converted,
    transcribe1 := fun _ => .ok "t", transcribe2 := fun _ => .ok "t",
    encrypt := fun t => some t }

/-- C7 (bug): the declared-Content-Length rejection of
`stream_download_to_file` raises its `ValueError` inside the `try` whose
`except Exception: pass` (intended for header parse errors) swallows it, so
the function never rejects before writing: with a declared 30 MB body the
size check fires, yet the download returns successfully and the file is
written.  Only the post-hoc measurement in `process_audio_job` then rejects
the file, marking it failed and notifying the user. -/
theorem C7_content_length_rejection_swallowed :
    contentLengthCheck 31457280 = Except.error (Exc.mk "Remote file too large") ∧
    stream_download_to_file c7Resp "dest.ogg" [] = Except.ok (["dest.ogg"], 31457280) ∧
    (process_audio_job c7Env "http://host/a.ogg").row.jobState = some "failed" ∧
    (process_audio_job c7Env "http://host/a.ogg").row.failureReason =
      some "file_too_large_31457280B" ∧
    (process_audio_job c7Env "http://host/a.ogg").effects = [Eff.msg "p" Msg.tooLargeMsg] := by
  have hurl : isHttpSource "http://host/a.ogg" = true := by decide
  have hconv : needsConversion (pyLower (mkstempSuffix ".ogg")) = false := by decide
  refine ⟨?_, ?_, ?_, ?_, ?_⟩ <;>
    norm_num [contentLengthCheck, stream_download_to_file, c7Resp, c7Env, process_audio_job,
      processAudioWithFile, with_retries, withRetriesGo, RETRY_ATTEMPTS, workerCleanup,
      emptyJobFields, processAudioTooLarge, MAX_FILE_MB, hurl, hconv, List.insert]
  decide

/-- Worker environment in which transcription succeeds and
`encrypt_sensitive_data` raises. -/
def c2Env : WorkerEnv :=
  { phoneRow := some "p", srcExt := ".ogg", localExists := true, localSize := 2097152,
    download := fun _ => { ok := true, contentLength := none, bodyBytes := 2097152 },
    conv1 := .converted, conv2 := .converted,
    transcribe1 := fun _ => .ok "hello team meeting", transcribe2 := fun _ => .ok "hello team meeting",
    encrypt := fun _ => none }

/-- Summary environment in which summarization succeeds and encryption
raises. -/
def c2SEnv : SummaryEnv :=
  { row := some (some "ciphertext", some "en", some "p"),
    decrypt := fun _ => some "hello team meeting",
    summarize := fun _ => .ok "short summary",
    encrypt := fun _ => none }

/-- C2 (bug): when `encrypt_sensitive_data` raises, both job functions store
the plaintext as an explicit fallback ("storing plaintext as fallback"),
so the persisted `transcript`/`summary` equals the inference collaborator's
plaintext — contradicting the claim and the module's own docstring
("does NOT leave plaintext transcript in DB"). -/
theorem C2_plaintext_stored_when_encryption_raises :
    (process_audio_job c2Env "http://host/a.ogg").row.transcript = some "hello team meeting" ∧
    (process_audio_job c2Env "http://host/a.ogg").row.jobState = some "transcribed" ∧
    (complete_summary_job c2SEnv (some "en")).row.summary = some "short summary" ∧
    (complete_summary_job c2SEnv (some "en")).row.jobState = some "summary_completed" := by
  have hurl : isHttpSource "http://host/a.ogg" = true := by decide
  have hconv : needsConversion (pyLower (mkstempSuffix ".ogg")) = false := by decide
  have hdet : detectLanguage "hello team meeting" = "en" := by decide
  refine ⟨?_, ?_, ?_, ?_⟩ <;>
    norm_num [c2Env, c2SEnv, process_audio_job, processAudioWithFile, complete_summary_job,
      with_retries, withRetriesGo, RETRY_ATTEMPTS, stream_download_to_file, workerCleanup,
      emptyJobFields, processAudioSuccess, MAX_FILE_MB, hurl, hconv, hdet, List.insert]

/-! ### Helper lemmas about strings and the retry loop -/

theorem string_append_ne_empty (s t : String) (hs : s ≠ "") : s ++ t ≠ "" := by
  intro h
  apply hs
  have hd : (s ++ t).data = ([] : List Char) := congrArg String.data h
  rw [String.data_append] at hd
  rcases List.append_eq_nil.mp hd with ⟨h1, _⟩
  cases s
  simp_all

theorem pyTake_ne_empty (s : String) (n : Nat) (hs : s ≠ "") (hn : n ≠ 0) :
    pyTake s n ≠ "" := by
  intro h
  have hd : (pyTake s n).data = ([] : List Char) := congrArg String.data h
  unfold pyTake at hd
  rcases List.take_eq_nil_iff.mp hd with h0 | h0
  · exact hn h0
  · apply hs
    cases s
    simp_all

/-- Every exception `with_retries` re-raises comes from an attempt of `fn`
(or is the impossible zero-attempt placeholder). -/
theorem withRetriesGo_error_prop {α : Type} (fn : Nat → Except Exc α) (P : Exc → Prop)
    (hfn : ∀ i e, fn i = .error e → P e) :
    ∀ (fuel i : Nat) (last : Exc) (e : Exc), P last →
      withRetriesGo fn fuel i last = .error e → P e := by
  intro fuel
  induction fuel with
  | zero =>
    intro i last e hl h
    unfold withRetriesGo at h
    injection h with h'
    exact h' ▸ hl
  | succ n ih =>
    intro i last e hl h
    unfold withRetriesGo at h
    cases hfi : fn i with
    | ok a => rw [hfi] at h; cases h
    | error e' => rw [hfi] at h; exact ih (i + 1) e' e (hfn i e' hfi) h

/-- Every value `with_retries` returns comes from an attempt of `fn`. -/
theorem withRetriesGo_ok_prop {α : Type} (fn : Nat → Except Exc α) (P : α → Prop)
    (hfn : ∀ i a, fn i = .ok a → P a) :
    ∀ (fuel i : Nat) (last : Exc) (a : α),
      withRetriesGo fn fuel i last = .ok a → P a := by
  intro fuel
  induction fuel with
  | zero => intro i last a h; unfold withRetriesGo at h; cases h
  | succ n ih =>
    intro i last a h
    unfold withRetriesGo at h
    cases hfi : fn i with
    | ok b => rw [hfi] at h; injection h with h'; exact h' ▸ hfn i b hfi
    | error e' => rw [hfi] at h; exact ih (i + 1) e' a h

/-- The only exception `stream_download_to_file` raises is the
`raise_for_status` one. -/
theorem stream_download_to_file_error (resp : HttpResp) (dest : String) (fs : List String)
    (e : Exc) (h : stream_download_to_file resp dest fs = .error e) :
    e = Exc.mk "HTTPError" := by
  unfold stream_download_to_file at h
  by_cases hok : resp.ok
  · simp [hok] at h
  · simp only [hok] at h
    simp at h
    exact h.symm

/-- A successful `stream_download_to_file` leaves the file set with the
destination file written. -/
theorem stream_download_to_file_ok (resp : HttpResp) (dest : String) (fs : List String)
    (p : List String × Nat) (h : stream_download_to_file resp dest fs = .ok p) :
    p.1 = fs.insert dest := by
  unfold stream_download_to_file at h
  by_cases hok : resp.ok
  · simp only [hok] at h
    simp at h
    rw [← h]
  · simp [hok] at h

/-- Worker environment whose download raises on every retry attempt
(e.g. the media URL keeps answering with an HTTP error status). -/
def c3Env : WorkerEnv :=
  { phoneRow := some "p", srcExt := ".ogg", localExists := true, localSize := 0,
    download := fun _ => { ok := false, contentLength := none, bodyBytes := 0 },
    conv1 := .converted, conv2 := .converted,
    transcribe1 := fun _ => .error (Exc.mk "x"), transcribe2 := fun _ => .error (Exc.mk "x"),
    encrypt := fun t => some t }

/-- C3 counterexample: when the download fails on all retry attempts, the
exception reaches the outer `except` handler of `process_audio_job`, which
marks the job `failed` with a recorded reason but sends **no** user-visible
reply (that handler contains no `send_whatsapp` call) — a silent failure,
refuting the claim that every failure path notifies the user. -/
theorem C3_download_failure_is_silent :
    (process_audio_job c3Env "http://host/a.ogg").row.jobState = some "failed" ∧
    (process_audio_job c3Env "http://host/a.ogg").row.failureReason = some "HTTPError" ∧
    (process_audio_job c3Env "http://host/a.ogg").effects = [] := by
  have hurl : isHttpSource "http://host/a.ogg" = true := by decide
  refine ⟨?_, ?_, ?_⟩
  all_goals
    norm_num [c3Env, process_audio_job, with_retries, withRetriesGo, RETRY_ATTEMPTS,
      stream_download_to_file, processAudioOuterExcept, workerCleanup,
      emptyJobFields, hurl]
  all_goals try decide

/-- Every failure `processAudioWithFile` records carries a non-empty reason. -/
theorem processAudioWithFile_failed_reason (env : WorkerEnv) (phone tmpInExt : String)
    (fs1 : List String) (fileSize : Nat) :
    (processAudioWithFile env phone tmpInExt fs1 fileSize).row.jobState = some "failed" →
    ∃ r, (processAudioWithFile env phone tmpInExt fs1 fileSize).row.failureReason = some r ∧
      r ≠ "" := by
  simp only [processAudioWithFile]
  repeat' split
  all_goals intro h
  all_goals first
    | exact ⟨_, rfl, by decide⟩
    | exact ⟨_, rfl, string_append_ne_empty _ _ (string_append_ne_empty _ _ (by decide))⟩
    | simp [processAudioSuccess] at h

/-- C3 (amended): every path of `process_audio_job` that marks a job `failed`
records a non-empty `failure_reason`, and every such path of
`complete_summary_job` records a `failure_reason` (the text of the raised
exception, for the generic handler) — but a user-visible reply is **not**
guaranteed: the paths through the generic `except` handlers (download
failure, empty file, missing transcript, summarization failure) are silent,
as the counterexample shows. -/
theorem C3_failed_jobs_record_reason :
    (∀ (env : WorkerEnv) (src : String),
        (process_audio_job env src).row.jobState = some "failed" →
        ∃ r, (process_audio_job env src).row.failureReason = some r ∧ r ≠ "") ∧
    (∀ (env : SummaryEnv) (lc : Option String),
        (complete_summary_job env lc).row.jobState = some "failed" →
        ((complete_summary_job env lc).row.failureReason).isSome = true) := by
  constructor
  · intro env src
    simp only [process_audio_job]
    split
    next e heq =>
      intro _
      refine ⟨pyTake e.msg 1000, rfl, pyTake_ne_empty _ _ ?_ (by norm_num)⟩
      split at heq
      · -- remote source: the re-raised exception is a download error
        simp only [with_retries] at heq
        exact withRetriesGo_error_prop _ (fun ex => ex.msg ≠ "")
          (fun i ex hex => by
            rw [stream_download_to_file_error _ _ _ _ hex]; decide)
          RETRY_ATTEMPTS 0 _ e (by decide) heq
      · split at heq
        · simp at heq
        · injection heq with h'
          rw [← h']
          exact string_append_ne_empty _ _ (by decide)
    next fs1 fileSize heq =>
      exact processAudioWithFile_failed_reason env _ _ fs1 fileSize
  · intro env lc
    simp only [complete_summary_job]
    repeat' split
    all_goals intro h
    all_goals simp_all [emptyJobFields]

/-- Summary environment whose meeting row has no transcript. -/
def c3SEnv : SummaryEnv :=
  { row := some (none, none, some "p"),
    decrypt := fun t => some t,
    summarize := fun _ => .ok "s",
    encrypt := fun t => some t }

theorem C3_failed_jobs_record_reason_witness :
    (∃ r, (process_audio_job c3Env "http://host/a.ogg").row.failureReason = some r ∧ r ≠ "") ∧
    ((complete_summary_job c3SEnv none).row.failureReason).isSome = true := by
  have hurl : isHttpSource "http://host/a.ogg" = true := by decide
  refine ⟨C3_failed_jobs_record_reason.1 c3Env "http://host/a.ogg" ?_,
          C3_failed_jobs_record_reason.2 c3SEnv none rfl⟩
  norm_num [c3Env, process_audio_job, with_retries, withRetriesGo, RETRY_ATTEMPTS,
    stream_download_to_file, processAudioOuterExcept, workerCleanup, emptyJobFields, hurl]

/-- Every path of the post-download stage of `process_audio_job` removes the
temp files it created: starting from `tmp_in` on disk, the `finally` block
leaves nothing behind. -/
theorem processAudioWithFile_fs (env : WorkerEnv) (phone tmpInExt : String) (fileSize : Nat) :
    (processAudioWithFile env phone tmpInExt [TMP_IN_PATH] fileSize).fs = [] := by
  have e1 : workerCleanup [TMP_IN_PATH] none = [] := by decide
  have e2 : workerCleanup [TMP_IN_PATH] (some TMP_IN_PATH) = [] := by decide
  have e3 : workerCleanup (List.insert CONV1_PATH [TMP_IN_PATH]) (some CONV1_PATH) = [] := by
    decide
  have e4 : workerCleanup (List.insert CONV2_PATH [TMP_IN_PATH]) (some CONV2_PATH) = [] := by
    decide
  have e5 : (List.insert CONV1_PATH [TMP_IN_PATH]).erase CONV1_PATH = [TMP_IN_PATH] := by decide
  have e6 : (List.insert CONV2_PATH [TMP_IN_PATH]).erase CONV2_PATH = [TMP_IN_PATH] := by decide
  simp only [processAudioWithFile, ensure_wav_via_ffmpeg]
  by_cases hwav : tmpInExt = ".wav"
  all_goals cases h1 : env.conv1
  all_goals cases h2 : env.conv2
  all_goals simp only [hwav, h1, h2, if_true, if_false, ite_true, ite_false]
  all_goals repeat' split
  all_goals
    first
      | rfl
      | simp_all [processAudioSuccess, processAudioTranscriptionFailed, processAudioOuterExcept,
          processAudioTooLarge, e1, e2, e3, e4, e5, e6]

/-- C9: for every run of `process_audio_job` — success, failure at any step,
or an exception reaching the outer handler — none of the local temporary
files it created (the downloaded/copied input and any ffmpeg output) remains
on disk when the function returns: the `finally` block (and the internal
removals of `ensure_wav_via_ffmpeg`) delete them all. -/
theorem C9_worker_cleans_temp_files (env : WorkerEnv) (src : String) :
    (process_audio_job env src).fs = [] := by
  have einsert : List.insert TMP_IN_PATH [TMP_IN_PATH] = [TMP_IN_PATH] := by decide
  have eclean : workerCleanup [TMP_IN_PATH] none = [] := by decide
  simp only [process_audio_job]
  split
  next e heq => simp [processAudioOuterExcept, eclean]
  next fs1 fileSize heq =>
    have hfs1 : fs1 = [TMP_IN_PATH] := by
      split at heq
      · simp only [with_retries] at heq
        exact withRetriesGo_ok_prop
          (fun i => stream_download_to_file (env.download i) TMP_IN_PATH [TMP_IN_PATH])
          (fun p => p.1 = [TMP_IN_PATH])
          (fun i p hp => by
            show p.1 = [TMP_IN_PATH]
            rw [stream_download_to_file_ok _ _ _ _ hp]; exact einsert)
          RETRY_ATTEMPTS 0 _ _ heq
      · split at heq
        · injection heq with h'
          exact ((Prod.ext_iff.mp h').1).symm
        · simp at heq
    rw [hfs1]
    exact processAudioWithFile_fs env _ _ fileSize

/-- C5: when the computed idempotency key is present and already appears on
an existing job row's `message_sid`, the webhook returns immediately: the
database is untouched, no effect of any kind is produced (no reply, no
charge, no job, no enqueue), and the transport gets the usual `("", 204)`. -/
theorem C5_duplicate_event_discarded (env : WebhookEnv) (db : Db) (req : Req) (k : String)
    (hk : webhookDedupeKey env req = some k) (hne : k ≠ "")
    (hdup : db.jobs.any (fun j => j.messageSid == webhookDedupeKey env req) = true) :
    twilio_webhook env db req = respond db [] [] := by
  have ht : truthy (webhookDedupeKey env req) = true := by
    rw [hk]; simp [truthy, hne]
  simp only [twilio_webhook, ht, hdup, if_true, ite_true]

def c5Env : WebhookEnv :=
  { sha256hex := fun _ => "h", parseLanguageChoice := fun _ => none,
    queueAvailable := true, enqueueOk := true, downloadResult := none,
    mutagenLength := none, fileSizeBytes := none, insertReturnsRow := true, now := 0 }

def c5Job : JobRow :=
  { id := 1, phone := "p", audioFile := some "u", transcript := none, summary := none,
    messageSid := some "SM1", jobState := none, detectedLanguage := none, createdSeq := 1 }

def c5Db : Db := { users := [], jobs := [c5Job], nextId := 2, nextSeq := 2 }

def c5Req : Req :=
  { fromAddr := some "p", messageSid := some "SM1", mediaUrl := some "http://m/x.ogg",
    mediaContentType := some "audio/ogg", body := some "", latitude := none, longitude := none,
    buttonPayload := none }

theorem C5_duplicate_event_discarded_witness :
    twilio_webhook c5Env c5Db c5Req = respond c5Db [] [] :=
  C5_duplicate_event_discarded c5Env c5Db c5Req "SM1" (by decide) (by decide) (by decide)

/-- Every return of the continuation of the text flow is `("", 204)`. -/
theorem webhookTextFlow2_response (env : WebhookEnv) (db : Db) (sender bodyText : String)
    (pending : Option (Nat × Option String)) :
    (webhookTextFlow2 env db sender bodyText pending).response = ("", 204) := by
  simp only [webhookTextFlow2]
  repeat' split
  all_goals rfl

/-- Every return of the text flow is `("", 204)`. -/
theorem webhookTextFlow_response (env : WebhookEnv) (db : Db) (sender bodyText : String) :
    (webhookTextFlow env db sender bodyText).response = ("", 204) := by
  simp only [webhookTextFlow]
  repeat' split
  all_goals first | rfl | apply webhookTextFlow2_response

/-- Every return of the media flow is `("", 204)` — including the path where
the job insert fails and the raised `RuntimeError` is caught by the outer
`except`. -/
theorem webhookMediaFlow_response (env : WebhookEnv) (db : Db) (sender mediaUrl : String)
    (dedupeKey : Option String) :
    (webhookMediaFlow env db sender mediaUrl dedupeKey).response = ("", 204) := by
  simp only [webhookMediaFlow]
  repeat' split
  all_goals rfl

/-- C10: every POST to the webhook — every text, media, duplicate, guard and
failure branch, including the paths where processing raises and the outer
`except` answers — returns HTTP 204 with an empty body, so the transport
never sees a non-success status or a retry signal. -/
theorem C10_webhook_always_204 (env : WebhookEnv) (db : Db) (req : Req) :
    (twilio_webhook env db req).response = ("", 204) := by
  simp only [twilio_webhook]
  repeat' split
  all_goals first | rfl | apply webhookTextFlow_response | apply webhookMediaFlow_response

/-- A job of user `p` awaiting its language choice. -/
def c8Job : JobRow :=
  { id := 5, phone := "p", audioFile := none, transcript := some "enc", summary := none,
    messageSid := some "SM0", jobState := some "awaiting_language_choice",
    detectedLanguage := some "en", createdSeq := 1 }

def c8Db : Db := { users := [("p", ⟨30, false, none⟩)], jobs := [c8Job], nextId := 6, nextSeq := 2 }

def c8Env : WebhookEnv :=
  { sha256hex := fun _ => "h", parseLanguageChoice := fun _ => none,
    queueAvailable := true, enqueueOk := true, downloadResult := none,
    mutagenLength := none, fileSizeBytes := none, insertReturnsRow := true, now := 0 }

/-- The text "subscribe" from user `p`, who has a job awaiting a language
choice. -/
def c8Req : Req :=
  { fromAddr := some "p", messageSid := some "SMX", mediaUrl := none, mediaContentType := none,
    body := some "subscribe", latitude := none, longitude := none, buttonPayload := none }

/-- C8 counterexample: the text "subscribe" is not a valid menu choice
(`parse_language_choice` rejects it) and the sender has a job awaiting a
language choice, yet the handler answers with the subscription pitch — the
selection menu is **not** re-sent (the job state is indeed unchanged).  The
recognized-command branches run before the re-prompt fallback, refuting the
claim that every invalid reply re-presents the menu. -/
theorem C8_recognized_command_skips_reprompt :
    pendingSummaryJob c8Db "p" = some (5, some "en") ∧
    c8Env.parseLanguageChoice "subscribe" = none ∧
    twilio_webhook c8Env c8Db c8Req = respond c8Db [Eff.msg "p" Msg.subscribePremium] [] ∧
    ((twilio_webhook c8Env c8Db c8Req).effects.all
       (fun e => match e with
         | Eff.msg _ (Msg.menuReprompt _) => false
         | _ => true)) = true := by
  refine ⟨by decide, rfl, by decide, by decide⟩

/-- C8 (amended): a text reply that matches **no** recognized command
(privacy, tasks, done, skip, score, language keywords, subscription
keywords) and is not a valid language choice reaches the fallback branch:
the job state — and the whole database — is unchanged and the selection
menu is re-sent with the detected language.  Replies matching another
recognized command are handled by that command's branch instead, without
re-presenting the menu. -/
theorem C8_unrecognized_reply_resends_menu (env : WebhookEnv) (db : Db)
    (sender bodyText : String) (mid : Nat) (dl : Option String)
    (hpend : pendingSummaryJob db sender = some (mid, dl))
    (h1 : pyLower bodyText ∉ ["privacy", "security", "data", "terms"])
    (h2 : pyLower bodyText ∉ ["show my tasks", "show my task", "tasks", "task", "my tasks",
            "my task", "list tasks", "show tasks", "show task"])
    (h3 : pyStartsWith (pyLower bodyText) "done " = false)
    (h4 : pyLower bodyText ∉ ["skip", "no summary", "no", "cancel"])
    (h5 : pyLower bodyText ∉ ["score", "my score", "show score", "task score"])
    (hlang : env.parseLanguageChoice bodyText = none)
    (h6 : pyLower bodyText ∉ ["language", "lang", "settings", "भाषा", "ভাষা"])
    (h7 : pyLower bodyText ∉ ["subscribe", "premium", "upgrade", "subscription", "499"])
    (h8 : pyLower bodyText ∉ ["basic", "basic plan", "299"]) :
    webhookTextFlow env db sender bodyText =
      respond db [Eff.msg sender (Msg.menuReprompt dl)] [] := by
  simp only [webhookTextFlow, webhookTextFlow2, hpend, hlang, h1, h2, h3, h4, h5, h6, h7, h8,
    if_false, ite_false]
  rfl

theorem C8_unrecognized_reply_resends_menu_witness :
    webhookTextFlow c8Env c8Db "p" "hello there" =
      respond c8Db [Eff.msg "p" (Msg.menuReprompt (some "en"))] [] :=
  C8_unrecognized_reply_resends_menu c8Env c8Db "p" "hello there" 5 (some "en")
    (by decide) (by decide) (by decide) (by decide) (by decide) (by decide) rfl
    (by decide) (by decide) (by decide)
